import Mathlib

/-!
Shallow embedding of the core of the seaavey/tools repository:

* `request` and `requestBuffer` from `src/Scripts/Siputzx.ts` — the retrying
  JSON/binary fetch helpers.  The network environment is modelled by an
  oracle mapping each attempt number (1-indexed) to the outcome the
  `await fetch` race produced for that attempt: a settled HTTP response,
  an `AbortError` (the timeout fired), or another request-level failure.
  The retry loop is translated line by line; the `for` loop is realised
  by fuel counting the remaining iterations.

* the `Cooldown` class — a table of `{_id, timer}` entries with the
  `hold`/`check` operations.  `Date.now()` is modelled by an explicit
  `now` argument; machine time is `Int` milliseconds.  In-place mutation
  of the found entry is modelled by rebuilding the list with the first
  matching entry's `timer` replaced.
-/

namespace SeaaveyTools

/-- A settled HTTP response as seen from inside the try block:
`status`, the text of the body (what `response.text()` yields), the
`Content-Type` header (`headers.get` with the `|| ''` default folded in),
what `response.json()` yields (`none` when it would reject), and the
bytes `response.arrayBuffer()` yields. -/
structure HttpResponse where
  status : Int
  bodyText : String
  contentType : String
  jsonData : Option String
  bytes : List Nat
deriving DecidableEq

/-- Outcome of one attempt's `await fetch` race: a settled response, an
`AbortError` raised because the `setTimeout` fired `controller.abort()`,
or any other request-level rejection (network failure). -/
inductive AttemptOutcome where
  | resp (r : HttpResponse)
  | aborted
  | failed (msg : String)
deriving DecidableEq

/-- The errors the two fetch helpers can terminate with.  `httpError`
is `new Error('HTTP error! Status: ..., Body: ...')`; `abortError` the
propagated `AbortError`; `fetchFailed` any other fetch rejection;
`jsonDecodeError` a rejection of `response.json()`; `notBinaryError` is
`new Error('Expected binary data but received non-binary response.')`;
`loopExhausted` the throw after the `for` loop falls through. -/
inductive ReqError where
  | httpError (status : Int) (body : String)
  | abortError
  | fetchFailed (msg : String)
  | jsonDecodeError
  | notBinaryError
  | loopExhausted
deriving DecidableEq

/-- Result of a fetch helper: the returned data or the thrown error. -/
inductive ReqResult (α : Type) where
  | ok (data : α)
  | error (e : ReqError)
deriving DecidableEq

/-- A whole run of one of the helpers: how many attempts were started
and what the call returned or threw. -/
structure RunResult (α : Type) where
  attempts : Nat
  result : ReqResult α
deriving DecidableEq

/-- `response.ok`: status in the inclusive range 200–299. -/
def respOk (status : Int) : Bool :=
  200 ≤ status && status ≤ 299

/-- `response.status >= 500 && response.status < 600`. -/
def is5xx (status : Int) : Bool :=
  500 ≤ status && status < 600

/-- Does `pat` occur as a contiguous run inside the list? -/
def hasInfix (pat : List Char) : List Char → Bool
  | [] => pat.isEmpty
  | c :: cs => pat.isPrefixOf (c :: cs) || hasInfix pat cs

/-- JavaScript `String.prototype.includes`: the pattern occurs as a
contiguous substring. -/
def strIncludes (s pat : String) : Bool :=
  hasInfix pat.toList s.toList

/-- The `request` retry loop from `src/Scripts/Siputzx.ts`.  `fuel` is
the number of loop iterations still allowed (`retryCount + 1 - attempt`),
`attempt` the current 1-indexed attempt.  Every `throw` inside the try
block lands in the catch block, which rethrows only when
`attempt === retryCount` and otherwise lets the loop continue. -/
def requestAux (retryCount : Nat) (oracle : Nat → AttemptOutcome) :
    Nat → Nat → RunResult String
  | 0, attempt => ⟨attempt - 1, .error .loopExhausted⟩
  | fuel + 1, attempt =>
    match oracle attempt with
    | .resp r =>
      if !(respOk r.status) then
        if is5xx r.status && attempt < retryCount then
          requestAux retryCount oracle fuel (attempt + 1)
        else
          -- throw new Error('HTTP error! ...') — caught by the catch block
          if attempt == retryCount then
            ⟨attempt, .error (.httpError r.status r.bodyText)⟩
          else
            requestAux retryCount oracle fuel (attempt + 1)
      else
        match r.jsonData with
        | some d => ⟨attempt, .ok d⟩
        | none =>
          -- response.json() rejected — caught by the catch block
          if attempt == retryCount then ⟨attempt, .error .jsonDecodeError⟩
          else requestAux retryCount oracle fuel (attempt + 1)
    | .aborted =>
      if attempt == retryCount then ⟨attempt, .error .abortError⟩
      else requestAux retryCount oracle fuel (attempt + 1)
    | .failed msg =>
      if attempt == retryCount then ⟨attempt, .error (.fetchFailed msg)⟩
      else requestAux retryCount oracle fuel (attempt + 1)

/-- `request` from `src/Scripts/Siputzx.ts`: run the loop for attempts
`1 .. retryCount`. -/
def request (retryCount : Nat) (oracle : Nat → AttemptOutcome) : RunResult String :=
  requestAux retryCount oracle retryCount 1

/-- The content-type gate of `requestBuffer`:
`contentType.includes('application/octet-stream') || contentType.includes('image/')`. -/
def isBinaryCT (contentType : String) : Bool :=
  strIncludes contentType "application/octet-stream" || strIncludes contentType "image/"

/-- The `requestBuffer` retry loop from `src/Scripts/Siputzx.ts`; same
structure as `requestAux`, but a 2xx response passes through the
content-type gate: binary content types return the bytes, anything else
throws `Expected binary data but received non-binary response.`, which
the catch block rethrows only on the last attempt. -/
def requestBufferAux (retryCount : Nat) (oracle : Nat → AttemptOutcome) :
    Nat → Nat → RunResult (List Nat)
  | 0, attempt => ⟨attempt - 1, .error .loopExhausted⟩
  | fuel + 1, attempt =>
    match oracle attempt with
    | .resp r =>
      if !(respOk r.status) then
        if is5xx r.status && attempt < retryCount then
          requestBufferAux retryCount oracle fuel (attempt + 1)
        else
          if attempt == retryCount then
            ⟨attempt, .error (.httpError r.status r.bodyText)⟩
          else
            requestBufferAux retryCount oracle fuel (attempt + 1)
      else
        if isBinaryCT r.contentType then
          ⟨attempt, .ok r.bytes⟩
        else
          -- throw new Error('Expected binary data ...') — caught below
          if attempt == retryCount then ⟨attempt, .error .notBinaryError⟩
          else requestBufferAux retryCount oracle fuel (attempt + 1)
    | .aborted =>
      if attempt == retryCount then ⟨attempt, .error .abortError⟩
      else requestBufferAux retryCount oracle fuel (attempt + 1)
    | .failed msg =>
      if attempt == retryCount then ⟨attempt, .error (.fetchFailed msg)⟩
      else requestBufferAux retryCount oracle fuel (attempt + 1)

/-- `requestBuffer` from `src/Scripts/Siputzx.ts`. -/
def requestBuffer (retryCount : Nat) (oracle : Nat → AttemptOutcome) : RunResult (List Nat) :=
  requestBufferAux retryCount oracle retryCount 1

/-- An entry of the cooldown table: `{ _id, timer }`. -/
structure CooldownEntry where
  _id : String
  timer : Int
deriving DecidableEq

/-- `{ state: boolean }`. -/
structure CooldownResult where
  state : Bool
deriving DecidableEq

/-- The `Cooldown` instance state: the constructor argument `cooldown`
and the mutable `cooldownList`. -/
structure Cooldown where
  cooldown : Int
  cooldownList : List CooldownEntry
deriving DecidableEq

/-- `find(id)`: first entry of the list whose `_id` equals `id`. -/
def Cooldown.find (c : Cooldown) (id : String) : Option CooldownEntry :=
  c.cooldownList.find? (fun entry => entry._id == id)

/-- `pushId(id)`: append `{ _id: id, timer: Date.now() }`. -/
def Cooldown.pushId (c : Cooldown) (id : String) (now : Int) : Cooldown :=
  { c with cooldownList := c.cooldownList ++ [⟨id, now⟩] }

/-- `entry.timer = Date.now()` on the entry `find` returned: replace the
`timer` of the first entry whose `_id` equals `id`. -/
def setTimer : List CooldownEntry → String → Int → List CooldownEntry
  | [], _, _ => []
  | e :: es, id, now =>
    if e._id == id then { e with timer := now } :: es
    else e :: setTimer es id now

/-- `hold(id, delay)` (JS default `delay = 3000`); `now` stands for
`Date.now()`.  Returns the table state after the call together with the
`CooldownResult`. -/
def Cooldown.hold (c : Cooldown) (now : Int) (id : String) (delay : Int) :
    Cooldown × CooldownResult :=
  match c.find id with
  | none => (c.pushId id now, ⟨false⟩)
  | some entry =>
    if now - entry.timer < c.cooldown - delay then
      (c, ⟨true⟩)
    else if max 0 (c.cooldown - delay - (now - entry.timer)) < 15000 then
      ({ c with cooldownList := setTimer c.cooldownList id now }, ⟨false⟩)
    else
      (c, ⟨false⟩)

/-- `check(id)`; `now` stands for `Date.now()`.  The body contains no
assignment, so every branch returns the table unchanged. -/
def Cooldown.check (c : Cooldown) (now : Int) (id : String) :
    Cooldown × CooldownResult :=
  match c.find id with
  | none => (c, ⟨false⟩)
  | some entry =>
    if now - entry.timer < c.cooldown - 3000 then
      (c, ⟨true⟩)
    else if max 0 (c.cooldown - 3000 - (now - entry.timer)) < 15000 then
      (c, ⟨false⟩)
    else
      (c, ⟨false⟩)

/-- One public operation on a `Cooldown` gate. -/
inductive GateOp where
  | hold (now : Int) (id : String) (delay : Int)
  | check (now : Int) (id : String)

/-- Effect of one operation on the gate state. -/
def applyOp (c : Cooldown) : GateOp → Cooldown
  | .hold now id delay => (c.hold now id delay).1
  | .check now id => (c.check now id).1

/-- Run a sequence of gate operations from a starting state. -/
def runOps (c : Cooldown) (ops : List GateOp) : Cooldown :=
  ops.foldl applyOp c

/-- Oracle for a server that answers 404 with body `not found` on every attempt. -/
def const404Oracle : Nat → AttemptOutcome :=
  fun _ => .resp ⟨404, "not found", "text/html", none, []⟩

/-- Oracle for a server that answers 503 with body `oops` on every attempt. -/
def const503Oracle : Nat → AttemptOutcome :=
  fun _ => .resp ⟨503, "oops", "", none, []⟩

/-- Oracle for a server that answers 200 with `Content-Type: text/html`
on every attempt. -/
def htmlOracle : Nat → AttemptOutcome :=
  fun _ => .resp ⟨200, "", "text/html", none, [1, 2]⟩

/-- Oracle for a request that times out (aborts) on every attempt. -/
def abortOracle : Nat → AttemptOutcome :=
  fun _ => .aborted

/-- Oracle whose attempt 1 yields a 503 and attempt 2 a decodable 200. -/
def succ2Oracle : Nat → AttemptOutcome :=
  fun n =>
    if n == 2 then .resp ⟨200, "", "", some "DATA", []⟩
    else .resp ⟨503, "oops", "", none, []⟩

/-! ### Helper lemmas about the retry loops -/

theorem requestAux_attempts_le (N : Nat) (o : Nat → AttemptOutcome) :
    ∀ (fuel attempt : Nat), 1 ≤ attempt →
      (requestAux N o fuel attempt).attempts + 1 ≤ attempt + fuel := by
  intro fuel
  induction fuel with
  | zero =>
    intro attempt h
    simp only [requestAux]
    omega
  | succ fuel ih =>
    intro attempt h
    simp only [requestAux]
    split
    · split
      · split
        · exact le_trans (ih (attempt + 1) (by omega)) (by omega)
        · split
          · dsimp only; omega
          · exact le_trans (ih (attempt + 1) (by omega)) (by omega)
      · split
        · dsimp only; omega
        · split
          · dsimp only; omega
          · exact le_trans (ih (attempt + 1) (by omega)) (by omega)
    · split
      · dsimp only; omega
      · exact le_trans (ih (attempt + 1) (by omega)) (by omega)
    · split
      · dsimp only; omega
      · exact le_trans (ih (attempt + 1) (by omega)) (by omega)

theorem requestAux_const_resp_notOk (N : Nat) (o : Nat → AttemptOutcome) (r : HttpResponse)
    (hok : respOk r.status = false) (ho : ∀ k, o k = .resp r) :
    ∀ (fuel attempt : Nat), 1 ≤ fuel → attempt + fuel = N + 1 →
      requestAux N o fuel attempt = ⟨N, .error (.httpError r.status r.bodyText)⟩ := by
  intro fuel
  induction fuel with
  | zero =>
    intro attempt h1 _
    exact absurd h1 (by omega)
  | succ fuel ih =>
    intro attempt h1 h2
    by_cases hA : attempt = N
    · have hf : fuel = 0 := by omega
      subst hf
      subst hA
      simp [requestAux, ho, hok, Nat.lt_irrefl]
    · have hne : (attempt == N) = false := by simp [hA]
      simp [requestAux, ho, hok, hne, ite_self]
      exact ih (attempt + 1) (by omega) (by omega)

theorem requestBufferAux_const_resp_notOk (N : Nat) (o : Nat → AttemptOutcome)
    (r : HttpResponse) (hok : respOk r.status = false) (ho : ∀ k, o k = .resp r) :
    ∀ (fuel attempt : Nat), 1 ≤ fuel → attempt + fuel = N + 1 →
      requestBufferAux N o fuel attempt = ⟨N, .error (.httpError r.status r.bodyText)⟩ := by
  intro fuel
  induction fuel with
  | zero =>
    intro attempt h1 _
    exact absurd h1 (by omega)
  | succ fuel ih =>
    intro attempt h1 h2
    by_cases hA : attempt = N
    · have hf : fuel = 0 := by omega
      subst hf
      subst hA
      simp [requestBufferAux, ho, hok, Nat.lt_irrefl]
    · have hne : (attempt == N) = false := by simp [hA]
      simp [requestBufferAux, ho, hok, hne, ite_self]
      exact ih (attempt + 1) (by omega) (by omega)

theorem requestAux_const_abort (N : Nat) (o : Nat → AttemptOutcome)
    (ho : ∀ k, o k = .aborted) :
    ∀ (fuel attempt : Nat), 1 ≤ fuel → attempt + fuel = N + 1 →
      requestAux N o fuel attempt = ⟨N, .error .abortError⟩ := by
  intro fuel
  induction fuel with
  | zero =>
    intro attempt h1 _
    exact absurd h1 (by omega)
  | succ fuel ih =>
    intro attempt h1 h2
    by_cases hA : attempt = N
    · have hf : fuel = 0 := by omega
      subst hf
      subst hA
      simp [requestAux, ho]
    · have hne : (attempt == N) = false := by simp [hA]
      simp [requestAux, ho, hne]
      exact ih (attempt + 1) (by omega) (by omega)

theorem requestBufferAux_const_abort (N : Nat) (o : Nat → AttemptOutcome)
    (ho : ∀ k, o k = .aborted) :
    ∀ (fuel attempt : Nat), 1 ≤ fuel → attempt + fuel = N + 1 →
      requestBufferAux N o fuel attempt = ⟨N, .error .abortError⟩ := by
  intro fuel
  induction fuel with
  | zero =>
    intro attempt h1 _
    exact absurd h1 (by omega)
  | succ fuel ih =>
    intro attempt h1 h2
    by_cases hA : attempt = N
    · have hf : fuel = 0 := by omega
      subst hf
      subst hA
      simp [requestBufferAux, ho]
    · have hne : (attempt == N) = false := by simp [hA]
      simp [requestBufferAux, ho, hne]
      exact ih (attempt + 1) (by omega) (by omega)

theorem requestBufferAux_const_nonbinary (N : Nat) (o : Nat → AttemptOutcome)
    (r : HttpResponse) (hok : respOk r.status = true)
    (hct : isBinaryCT r.contentType = false) (ho : ∀ k, o k = .resp r) :
    ∀ (fuel attempt : Nat), 1 ≤ fuel → attempt + fuel = N + 1 →
      requestBufferAux N o fuel attempt = ⟨N, .error .notBinaryError⟩ := by
  intro fuel
  induction fuel with
  | zero =>
    intro attempt h1 _
    exact absurd h1 (by omega)
  | succ fuel ih =>
    intro attempt h1 h2
    by_cases hA : attempt = N
    · have hf : fuel = 0 := by omega
      subst hf
      subst hA
      simp [requestBufferAux, ho, hok, hct]
    · have hne : (attempt == N) = false := by simp [hA]
      simp [requestBufferAux, ho, hok, hct, hne]
      exact ih (attempt + 1) (by omega) (by omega)

theorem requestBufferAux_no_bytes (N : Nat) (o : Nat → AttemptOutcome)
    (h : ∀ k r, o k = .resp r → isBinaryCT r.contentType = false) :
    ∀ (fuel attempt : Nat) (b : List Nat),
      (requestBufferAux N o fuel attempt).result ≠ .ok b := by
  intro fuel
  induction fuel with
  | zero =>
    intro attempt b
    simp [requestBufferAux]
  | succ fuel ih =>
    intro attempt b
    simp only [requestBufferAux]
    cases ho : o attempt with
    | resp r =>
      dsimp only
      split
      · split
        · exact ih (attempt + 1) b
        · split
          · simp
          · exact ih (attempt + 1) b
      · rw [if_neg (by simp [h attempt r ho])]
        split
        · simp
        · exact ih (attempt + 1) b
    | aborted =>
      dsimp only
      split
      · simp
      · exact ih (attempt + 1) b
    | failed msg =>
      dsimp only
      split
      · simp
      · exact ih (attempt + 1) b

/-! ### Helper lemmas about the cooldown gate -/

theorem check_fst (c : Cooldown) (now : Int) (id : String) :
    (Cooldown.check c now id).1 = c := by
  unfold Cooldown.check
  cases c.find id with
  | none => rfl
  | some entry =>
    dsimp only
    split
    · rfl
    · split <;> rfl

theorem setTimer_map_id (l : List CooldownEntry) (id : String) (now : Int) :
    (setTimer l id now).map (fun e => e._id) = l.map (fun e => e._id) := by
  induction l with
  | nil => rfl
  | cons e es ih =>
    unfold setTimer
    split <;> simp [ih]

theorem find_none_not_mem (l : List CooldownEntry) (id : String)
    (h : l.find? (fun e => e._id == id) = none) :
    id ∉ l.map (fun e => e._id) := by
  rw [List.find?_eq_none] at h
  intro hm
  rcases List.mem_map.mp hm with ⟨e, he, hid⟩
  exact (h e he) (by simp [hid])

theorem find_setTimer (l : List CooldownEntry) (id : String) (now : Int)
    (entry : CooldownEntry) (h : l.find? (fun e => e._id == id) = some entry) :
    (setTimer l id now).find? (fun e => e._id == id) = some ⟨entry._id, now⟩ := by
  induction l with
  | nil => simp at h
  | cons e es ih =>
    by_cases he : (e._id == id) = true
    · simp only [List.find?_cons, he] at h
      have hent : entry = e := by simpa using h.symm
      subst hent
      unfold setTimer
      rw [if_pos he]
      simp [List.find?_cons, he]
    · have he' : (e._id == id) = false := by simpa using he
      simp only [List.find?_cons, he'] at h
      unfold setTimer
      rw [if_neg he]
      simp only [List.find?_cons, he']
      exact ih h

theorem hold_preserves_nodup (c : Cooldown) (now : Int) (id : String) (delay : Int)
    (h : (c.cooldownList.map (fun e => e._id)).Nodup) :
    (((Cooldown.hold c now id delay).1).cooldownList.map (fun e => e._id)).Nodup := by
  unfold Cooldown.hold
  cases hf : c.find id with
  | none =>
    dsimp only [Cooldown.pushId]
    have hmem := find_none_not_mem c.cooldownList id hf
    simp [List.nodup_append, h, hmem]
  | some entry =>
    dsimp only
    split
    · exact h
    · split
      · dsimp only
        rw [setTimer_map_id]
        exact h
      · exact h

theorem runOps_preserves_nodup (ops : List GateOp) :
    ∀ (c : Cooldown), (c.cooldownList.map (fun e => e._id)).Nodup →
      (((runOps c ops).cooldownList.map (fun e => e._id)).Nodup) := by
  induction ops with
  | nil => intro c h; exact h
  | cons op ops ih =>
    intro c h
    show (((runOps (applyOp c op) ops).cooldownList.map (fun e => e._id)).Nodup)
    apply ih
    cases op with
    | hold now id delay => exact hold_preserves_nodup c now id delay h
    | check now id =>
      show ((((Cooldown.check c now id).1).cooldownList.map (fun e => e._id)).Nodup)
      rw [check_fst]
      exact h

/-! ### Claim theorems -/

/-- C1 (counterexample): the claim says a single 404 response with
`retryCount = 5` produces exactly 1 attempt and an immediate terminal
failure.  On the code it is false: the HTTP-error throw for a non-5xx
status sits inside the try block and is caught by the function's own
catch, which rethrows only on the last attempt; a server answering 404
on every attempt therefore yields 5 attempts, with the HTTP error of
the final attempt as the terminal failure. -/
theorem request_404_retried_counterexample :
    (request 5 const404Oracle).attempts = 5 ∧
    (request 5 const404Oracle).attempts ≠ 1 ∧
    (request 5 const404Oracle).result = .error (.httpError 404 "not found") := by
  decide

/-- C1 (amended): a non-5xx unsuccessful status raises the HTTP-error
describing status and body, but that error is caught by the attempt
loop's own catch and retried like any other failure; with every attempt
answering the same non-ok, non-5xx status, `request` makes all
`retryCount` attempts and terminates with the HTTP-error of the final
attempt. -/
theorem request_non5xx_error_retried (N : Nat) (o : Nat → AttemptOutcome)
    (r : HttpResponse) (hN : 1 ≤ N) (hok : respOk r.status = false)
    (h5 : is5xx r.status = false) (ho : ∀ k, o k = .resp r) :
    request N o = ⟨N, .error (.httpError r.status r.bodyText)⟩ := by
  unfold request
  exact requestAux_const_resp_notOk N o r hok ho N 1 hN (by omega)

/-- C1 (witness): the amended claim at `retryCount = 5` against a server
answering 404 on every attempt. -/
theorem request_non5xx_error_retried_witness :
    respOk 404 = false ∧ is5xx 404 = false ∧
    request 5 const404Oracle = ⟨5, .error (.httpError 404 "not found")⟩ :=
  ⟨by decide, by decide,
   request_non5xx_error_retried 5 const404Oracle
     ⟨404, "not found", "text/html", none, []⟩
     (by decide) (by decide) (by decide) (fun _ => rfl)⟩

/-- C2: whenever a record exists and the elapsed time has reached
`cooldown - delay`, `hold` always refreshes the record's timestamp to
`now` and returns `{state: false}`: the floored remaining time
`Math.max(0, cooldown - delay - elapsed)` equals `0 < 15000`, so the
near-expiry branch fires and the final non-mutating fallback is
unreachable — a tracked key's window is re-armed by any `hold` call past
the strict throttle window. -/
theorem hold_past_window_rearms (c : Cooldown) (now : Int) (id : String)
    (delay : Int) (entry : CooldownEntry) (hfind : c.find id = some entry)
    (h : c.cooldown - delay ≤ now - entry.timer) :
    Cooldown.hold c now id delay
      = ({ c with cooldownList := setTimer c.cooldownList id now }, ⟨false⟩) ∧
    max 0 (c.cooldown - delay - (now - entry.timer)) = 0 ∧
    ((Cooldown.hold c now id delay).1).find id = some ⟨entry._id, now⟩ := by
  have hmax : max 0 (c.cooldown - delay - (now - entry.timer)) = 0 :=
    max_eq_left (by omega)
  have hmain : Cooldown.hold c now id delay
      = ({ c with cooldownList := setTimer c.cooldownList id now }, ⟨false⟩) := by
    simp only [Cooldown.hold, hfind]
    rw [if_neg (by omega), if_pos (by rw [hmax]; norm_num)]
  refine ⟨hmain, hmax, ?_⟩
  rw [hmain]
  exact find_setTimer c.cooldownList id now entry hfind

/-- C2 (witness): a gate with `cooldown = 10000` and a record touched at
time 0; `hold` at time 8000 with `delay = 3000` (elapsed 8000 ≥ 7000)
refreshes the timestamp to 8000 and returns `{state: false}`. -/
theorem hold_past_window_rearms_witness :
    Cooldown.find ⟨10000, [⟨"a", 0⟩]⟩ "a" = some ⟨"a", 0⟩ ∧
    Cooldown.hold ⟨10000, [⟨"a", 0⟩]⟩ 8000 "a" 3000
      = (⟨10000, [⟨"a", 8000⟩]⟩, ⟨false⟩) := by
  refine ⟨by decide, ?_⟩
  have h := (hold_past_window_rearms ⟨10000, [⟨"a", 0⟩]⟩ 8000 "a" 3000 ⟨"a", 0⟩
    (by decide) (by decide)).1
  rw [h]
  decide

/-- C3: for `retryCount = N ≥ 1`, a `request` call whose underlying
request returns a 503 status on every attempt makes exactly `N` attempts
and then fails; the terminal failure carries (wraps) the last observed
error — the HTTP-error for the 503 seen on attempt `N`, which the catch
block rethrows after logging exhaustion (the synthetic post-loop error
is unreachable for `N ≥ 1`). -/
theorem request_all_503_exhausts_attempts (N : Nat) (o : Nat → AttemptOutcome)
    (r : HttpResponse) (hN : 1 ≤ N) (hst : r.status = 503)
    (ho : ∀ k, o k = .resp r) :
    request N o = ⟨N, .error (.httpError 503 r.bodyText)⟩ := by
  have hok : respOk r.status = false := by rw [hst]; decide
  have hrun := requestAux_const_resp_notOk N o r hok ho N 1 hN (by omega)
  unfold request
  rw [hrun, hst]

/-- C3 (witness): `retryCount = 3` against a server answering 503 with
body `oops` on every attempt: exactly 3 attempts, terminal HTTP error. -/
theorem request_all_503_exhausts_attempts_witness :
    (1 ≤ 3) ∧ request 3 const503Oracle = ⟨3, .error (.httpError 503 "oops")⟩ :=
  ⟨by decide,
   request_all_503_exhausts_attempts 3 const503Oracle ⟨503, "oops", "", none, []⟩
     (by decide) rfl (fun _ => rfl)⟩

/-- C4 (counterexample): the claim says a 2xx response with a non-binary
content type is "not a retryable condition".  On the code it is false:
the `Expected binary data` throw sits inside the try block, is caught by
the function's own catch and retried while attempts remain — a server
answering `200 text/html` on every attempt with `retryCount = 3` yields
3 attempts, not 1. -/
theorem requestBuffer_html_retried_counterexample :
    (requestBuffer 3 htmlOracle).attempts = 3 ∧
    (requestBuffer 3 htmlOracle).attempts ≠ 1 ∧
    (requestBuffer 3 htmlOracle).result = .error .notBinaryError := by
  decide

/-- C4 (amended): a 2xx response whose content type indicates neither
`application/octet-stream` nor an image is a decoding failure that the
catch block treats as a request-level failure — retried while attempts
remain, terminal on the last attempt — and such a response never yields
returned bytes: with every response non-binary, the run never returns a
byte sequence, and a constant `200 text/html` server produces
`retryCount` attempts ending in the non-binary error. -/
theorem requestBuffer_nonbinary_retried_never_bytes :
    (∀ (N : Nat) (o : Nat → AttemptOutcome) (r : HttpResponse),
      1 ≤ N → respOk r.status = true → isBinaryCT r.contentType = false →
      (∀ k, o k = .resp r) →
      requestBuffer N o = ⟨N, .error .notBinaryError⟩) ∧
    (∀ (N : Nat) (o : Nat → AttemptOutcome),
      (∀ k r, o k = .resp r → isBinaryCT r.contentType = false) →
      ∀ b, (requestBuffer N o).result ≠ .ok b) := by
  constructor
  · intro N o r hN hok hct ho
    unfold requestBuffer
    exact requestBufferAux_const_nonbinary N o r hok hct ho N 1 hN (by omega)
  · intro N o h b
    unfold requestBuffer
    exact requestBufferAux_no_bytes N o h N 1 b

/-- C4 (witness): the amended claim at `retryCount = 2` against a server
answering `200 text/html` on every attempt. -/
theorem requestBuffer_nonbinary_retried_never_bytes_witness :
    respOk 200 = true ∧ isBinaryCT "text/html" = false ∧
    requestBuffer 2 htmlOracle = ⟨2, .error .notBinaryError⟩ :=
  ⟨by decide, by decide,
   requestBuffer_nonbinary_retried_never_bytes.1 2 htmlOracle
     ⟨200, "", "text/html", none, [1, 2]⟩
     (by decide) (by decide) (by decide) (fun _ => rfl)⟩

/-- C5 (counterexample): the claim says that on a key past the strict
window and past the 15000 ms near-expiry threshold (the window fully
elapsed and more), `hold` returns `{state: false}` without creating or
mutating any record.  At `cooldown = 30000`, `delay = 3000`, a record
touched at 0 and `now = 47000` — 20000 ms beyond full expiry — `hold`
returns `{state: false}` but DOES mutate: it refreshes the record's
timestamp, because the floored remaining time is 0 < 15000 and the
near-expiry branch fires. -/
theorem hold_fallback_branch_counterexample :
    Cooldown.hold ⟨30000, [⟨"k", 0⟩]⟩ 47000 "k" 3000
      = (⟨30000, [⟨"k", 47000⟩]⟩, ⟨false⟩) ∧
    (Cooldown.hold ⟨30000, [⟨"k", 0⟩]⟩ 47000 "k" 3000).1 ≠ ⟨30000, [⟨"k", 0⟩]⟩ := by
  decide

/-- C5 (amended): the non-mutating fallback branch of `hold` is
unreachable: once a record is past the strict window the floored
remaining time `Math.max(0, cooldown - delay - elapsed)` is 0, never
≥ 15000, so every `hold` on an existing record past the strict window
takes the near-expiry branch — returning `{state: false}` and refreshing
the record's timestamp — rather than leaving the table untouched. -/
theorem hold_fallback_unreachable (c : Cooldown) (now : Int) (id : String)
    (delay : Int) (entry : CooldownEntry) (hfind : c.find id = some entry)
    (hpast : ¬(now - entry.timer < c.cooldown - delay)) :
    ¬(15000 ≤ max 0 (c.cooldown - delay - (now - entry.timer))) ∧
    (Cooldown.hold c now id delay).2 = ⟨false⟩ ∧
    (Cooldown.hold c now id delay).1
      = { c with cooldownList := setTimer c.cooldownList id now } := by
  have hmax : max 0 (c.cooldown - delay - (now - entry.timer)) = 0 :=
    max_eq_left (by omega)
  have hmain : Cooldown.hold c now id delay
      = ({ c with cooldownList := setTimer c.cooldownList id now }, ⟨false⟩) := by
    simp only [Cooldown.hold, hfind]
    rw [if_neg hpast, if_pos (by rw [hmax]; norm_num)]
  rw [hmain]
  exact ⟨by rw [hmax]; norm_num, rfl, rfl⟩

/-- C5 (witness): the amended claim at the concrete state of the
counterexample. -/
theorem hold_fallback_unreachable_witness :
    ¬(15000 ≤ max 0 ((30000 : Int) - 3000 - (47000 - 0))) ∧
    (Cooldown.hold ⟨30000, [⟨"k", 0⟩]⟩ 47000 "k" 3000).2 = ⟨false⟩ :=
  ⟨(hold_fallback_unreachable ⟨30000, [⟨"k", 0⟩]⟩ 47000 "k" 3000 ⟨"k", 0⟩
      (by decide) (by decide)).1,
   (hold_fallback_unreachable ⟨30000, [⟨"k", 0⟩]⟩ 47000 "k" 3000 ⟨"k", 0⟩
      (by decide) (by decide)).2.1⟩

/-- C6: at most `retryCount` attempts are made; a 2xx response with
decodable body on the current attempt ends the sequence immediately with
the decoded JSON value; and concretely, if attempt 2 of 3 succeeds then
no third attempt occurs. -/
theorem request_success_short_circuits :
    (∀ (N : Nat) (o : Nat → AttemptOutcome), (request N o).attempts ≤ N) ∧
    (∀ (N fuel attempt : Nat) (o : Nat → AttemptOutcome) (r : HttpResponse)
      (d : String), o attempt = .resp r → respOk r.status = true →
      r.jsonData = some d →
      requestAux N o (fuel + 1) attempt = ⟨attempt, .ok d⟩) ∧
    (∀ (o : Nat → AttemptOutcome) (r1 r2 : HttpResponse) (d : String),
      o 1 = .resp r1 → r1.status = 503 → o 2 = .resp r2 → r2.status = 200 →
      r2.jsonData = some d → request 3 o = ⟨2, .ok d⟩) := by
  refine ⟨?_, ?_, ?_⟩
  · intro N o
    have h := requestAux_attempts_le N o N 1 (by omega)
    unfold request
    omega
  · intro N fuel attempt o r d ho hok hj
    simp [requestAux, ho, hok, hj]
  · intro o r1 r2 d ho1 hs1 ho2 hs2 hj
    simp [request, requestAux, ho1, ho2, hs1, hs2, hj, respOk, is5xx]

/-- C6 (witness): attempt 1 answers 503, attempt 2 answers a decodable
200; the run stops after attempt 2 with the decoded value. -/
theorem request_success_short_circuits_witness :
    (request 3 succ2Oracle).attempts ≤ 3 ∧
    request 3 succ2Oracle = ⟨2, .ok "DATA"⟩ :=
  ⟨request_success_short_circuits.1 3 succ2Oracle,
   request_success_short_circuits.2.2 succ2Oracle ⟨503, "oops", "", none, []⟩
     ⟨200, "", "", some "DATA", []⟩ "DATA" rfl rfl rfl rfl rfl⟩

/-- C7: a timed-out attempt (the abort fired before the request settled)
is counted as a failed attempt; with every attempt aborting, `request`
and `requestBuffer` make all `retryCount` attempts and propagate the
abort error as the terminal failure, and an abort on a non-final attempt
lets the loop proceed to the next attempt. -/
theorem abort_retryable_and_terminal :
    (∀ (N : Nat), 1 ≤ N → ∀ (o : Nat → AttemptOutcome), (∀ k, o k = .aborted) →
      request N o = ⟨N, .error .abortError⟩ ∧
      requestBuffer N o = ⟨N, .error .abortError⟩) ∧
    (∀ (N fuel attempt : Nat) (o : Nat → AttemptOutcome),
      o attempt = .aborted → attempt ≠ N →
      requestAux N o (fuel + 1) attempt = requestAux N o fuel (attempt + 1) ∧
      requestBufferAux N o (fuel + 1) attempt
        = requestBufferAux N o fuel (attempt + 1)) := by
  constructor
  · intro N hN o ho
    constructor
    · unfold request
      exact requestAux_const_abort N o ho N 1 hN (by omega)
    · unfold requestBuffer
      exact requestBufferAux_const_abort N o ho N 1 hN (by omega)
  · intro N fuel attempt o ho hne
    have hb : (attempt == N) = false := by simp [hne]
    constructor
    · simp [requestAux, ho, hb]
    · simp [requestBufferAux, ho, hb]

/-- C7 (witness): every attempt aborts with `retryCount = 2`: both
helpers make 2 attempts and fail with the abort error; and an abort on
attempt 1 of 3 proceeds to attempt 2. -/
theorem abort_retryable_and_terminal_witness :
    request 2 abortOracle = ⟨2, .error .abortError⟩ ∧
    requestBuffer 2 abortOracle = ⟨2, .error .abortError⟩ ∧
    requestAux 3 abortOracle 2 1 = requestAux 3 abortOracle 1 2 :=
  ⟨(abort_retryable_and_terminal.1 2 (by decide) abortOracle (fun _ => rfl)).1,
   (abort_retryable_and_terminal.1 2 (by decide) abortOracle (fun _ => rfl)).2,
   (abort_retryable_and_terminal.2 3 1 1 abortOracle rfl (by decide)).1⟩

/-- C8: `hold` on a key whose record is within the strict window
(`now - lastTouched < cooldown - delay`) returns `{state: true}` and
leaves the table unchanged; concretely, with `cooldown = 10000`, a first
`hold` tracks the key and an immediate second `hold` (elapsed 0) returns
`{state: true}` without mutation. -/
theorem hold_on_held_key_idempotent :
    (∀ (c : Cooldown) (now : Int) (id : String) (delay : Int)
      (entry : CooldownEntry), c.find id = some entry →
      now - entry.timer < c.cooldown - delay →
      Cooldown.hold c now id delay = (c, ⟨true⟩)) ∧
    (∀ (t : Int) (id : String),
      Cooldown.hold ⟨10000, []⟩ t id 3000 = (⟨10000, [⟨id, t⟩]⟩, ⟨false⟩) ∧
      Cooldown.hold ⟨10000, [⟨id, t⟩]⟩ t id 3000
        = (⟨10000, [⟨id, t⟩]⟩, ⟨true⟩)) := by
  constructor
  · intro c now id delay entry hfind hlt
    simp only [Cooldown.hold, hfind]
    rw [if_pos hlt]
  · intro t id
    constructor
    · simp [Cooldown.hold, Cooldown.find, Cooldown.pushId]
    · have hfind : Cooldown.find ⟨10000, [⟨id, t⟩]⟩ id = some ⟨id, t⟩ := by
        simp [Cooldown.find, List.find?_cons]
      simp only [Cooldown.hold, hfind]
      rw [if_pos (by omega)]

/-- C8 (witness): the held-key case at a concrete state, and the
back-to-back `hold("b")` scenario at `t = 0`. -/
theorem hold_on_held_key_idempotent_witness :
    Cooldown.hold ⟨10000, [⟨"b", 0⟩]⟩ 0 "b" 3000 = (⟨10000, [⟨"b", 0⟩]⟩, ⟨true⟩) ∧
    Cooldown.hold ⟨10000, []⟩ 0 "b" 3000 = (⟨10000, [⟨"b", 0⟩]⟩, ⟨false⟩) :=
  ⟨hold_on_held_key_idempotent.1 ⟨10000, [⟨"b", 0⟩]⟩ 0 "b" 3000 ⟨"b", 0⟩
     (by decide) (by decide),
   (hold_on_held_key_idempotent.2 0 "b").1⟩

/-- C9: `check` never creates or mutates any record — its output table
always equals its input table, iterating it any number of times changes
nothing, and on an untracked (Free) key it returns `{state: false}`
leaving the key untracked; only `hold` can create a record. -/
theorem check_never_mutates :
    (∀ (c : Cooldown) (now : Int) (id : String),
      (Cooldown.check c now id).1 = c) ∧
    (∀ (c : Cooldown) (now : Int) (id : String) (n : Nat),
      (fun s => (Cooldown.check s now id).1)^[n] c = c) ∧
    (∀ (c : Cooldown) (now : Int) (id : String),
      c.find id = none → Cooldown.check c now id = (c, ⟨false⟩)) := by
  refine ⟨check_fst, ?_, ?_⟩
  · intro c now id n
    exact Function.iterate_fixed (check_fst c now id) n
  · intro c now id h
    simp [Cooldown.check, h]

/-- C9 (witness): `check` on an empty gate leaves it empty and reports
the key Free. -/
theorem check_never_mutates_witness :
    (Cooldown.check ⟨10000, []⟩ 5 "a").1 = ⟨10000, []⟩ ∧
    Cooldown.find ⟨10000, []⟩ "a" = none ∧
    Cooldown.check ⟨10000, []⟩ 5 "a" = (⟨10000, []⟩, ⟨false⟩) :=
  ⟨check_never_mutates.1 ⟨10000, []⟩ 5 "a", by decide,
   check_never_mutates.2.2 ⟨10000, []⟩ 5 "a" (by decide)⟩

/-- C10: starting from the empty table, every sequence of `hold` and
`check` operations keeps the keys of the cooldown table unique — a
record is only appended when no record for that key exists, timestamp
refreshes keep the key list unchanged, and `check` changes nothing. -/
theorem cooldown_keys_unique_invariant (cd : Int) (ops : List GateOp) :
    ((runOps ⟨cd, []⟩ ops).cooldownList.map (fun e => e._id)).Nodup := by
  apply runOps_preserves_nodup
  simp

end SeaaveyTools
